import Mathlib

/-!
# Verification of the Bengaluru data scraper core

Shallow embedding of the core of `master_scraper.py` (the "optimized" scraper)
and `master_scraper_v1_working.py` (the earlier version): the content
classifier `analyze_content`, the RSS/Reddit normalizers `fetch_rss_data` /
`fetch_reddit_data` (their per-record normalization step), and the
deduplicating store operation `store_events_in_db`.

Modelling conventions:
* Python strings are `String` (lists of Unicode codepoints).  `str.lower`
  and `str.title` are modelled on the ASCII letters only (`pyLower`,
  `pyTitle`); every configured keyword and location in the source is
  plain lowercase ASCII, so the classifier's matching behaviour is
  captured exactly on those.
* Python `needle in hay` (substring test) is `substr`.
* `datetime` instants are `Int` (epoch seconds); the normalizers receive
  the current time as an explicit argument.
* The MongoDB collection is a list of stored events in insertion order;
  `update_one({'link_original': l}, {'$setOnInsert': ev}, upsert=True)`
  inserts `ev` iff no stored row has link `l`, and reports whether an
  insert happened (`upserted_id`).
* A per-event storage failure (an exception raised by the write, caught by
  the `except` clause in `store_events_in_db`) is modelled by a failure
  oracle `fail : Event → Bool`: a failing write changes nothing and is
  not counted.
* A Python value that may be `None` is an `Option`; `entry.get("link")`
  returning `None` and returning `""` are both falsy in the
  `if event["link_original"]:` guard, so the event's `link_original`
  field collapses `None` to `""` (no claim distinguishes the two).
-/

/-- ASCII model of Python `str.lower` on one character. -/
def pyLowerChar (c : Char) : Char :=
  if 'A' ≤ c ∧ c ≤ 'Z' then Char.ofNat (c.toNat + 32) else c

/-- ASCII model of Python `str.upper` on one character. -/
def pyUpperChar (c : Char) : Char :=
  if 'a' ≤ c ∧ c ≤ 'z' then Char.ofNat (c.toNat - 32) else c

/-- ASCII letter test (Python `str.isalpha` restricted to ASCII). -/
def isAsciiAlpha (c : Char) : Bool :=
  ('a' ≤ c ∧ c ≤ 'z') ∨ ('A' ≤ c ∧ c ≤ 'Z')

/-- ASCII model of Python `str.lower`. -/
def pyLower (s : String) : String := ⟨s.data.map pyLowerChar⟩

/-- Helper for `pyTitle`: the Boolean flag records whether the previous
character was a letter. -/
def pyTitleGo : Bool → List Char → List Char
  | _, [] => []
  | prevAlpha, c :: cs =>
      let a := isAsciiAlpha c
      (if a then (if prevAlpha then pyLowerChar c else pyUpperChar c) else c)
        :: pyTitleGo a cs

/-- ASCII model of Python `str.title`: the first letter of every maximal
letter run is uppercased, the rest lowercased. -/
def pyTitle (s : String) : String := ⟨pyTitleGo false s.data⟩

/-- Does `needle` occur at the head of `hay`? -/
def matchesAt : List Char → List Char → Bool
  | [], _ => true
  | _ :: _, [] => false
  | a :: as, b :: bs => a == b && matchesAt as bs

/-- Does `needle` occur contiguously anywhere in `hay`?  Model of Python's
`needle in hay` for strings (the empty needle always occurs). -/
def hasSub (needle : List Char) : List Char → Bool
  | [] => matchesAt needle []
  | c :: t => matchesAt needle (c :: t) || hasSub needle t

/-- Python `needle in hay` on strings. -/
def substr (needle hay : String) : Bool := hasSub needle.data hay.data

/-! ## Configuration tables (module-level constants of `master_scraper.py`) -/

/-- `KEYWORD_CATEGORIES` of `master_scraper.py`, in dict (insertion) order. -/
def KEYWORD_CATEGORIES : List (String × List String) :=
  [("traffic", ["traffic", "jam", "congestion", "road", "flyover", "accident",
                "diversion", "slow moving", "blockade"]),
   ("civic_issue", ["water logging", "water-logged", "pothole", "garbage",
                    "waste", "fallen tree", "tree fall", "sewage", "drainage",
                    "water supply"]),
   ("power_cut", ["power cut", "outage", "no electricity", "bescom",
                  "power failure"]),
   ("cultural_event", ["exhibition", "concert", "festival", "market", "sante",
                       "play", "performance", "flash mob", "carnival", "mela"]),
   ("crime", ["theft", "robbery", "murder", "assault", "arrested", "police"])]

/-- `BANGALORE_LOCATIONS` of `master_scraper.py`. -/
def BANGALORE_LOCATIONS : List String :=
  ["koramangala", "hsr layout", "indiranagar", "marathahalli", "whitefield",
   "btm layout", "jayanagar", "jp nagar", "bellandur", "electronic city",
   "majestic", "mg road", "hebbal", "sarjapur", "old airport road",
   "silk board", "tin factory", "yelahanka", "manyata tech park"]

/-! ## The classifier `analyze_content` -/

/-- Result shape of `analyze_content`: the dict
`{'categories': ..., 'locations': ...}`.  The Python sets are represented
as lists (the table keys and the title-cased location names are pairwise
distinct, so no collapsing occurs; claims are stated up to membership). -/
structure AnalysisResult where
  categories : List String
  locations : List String
deriving DecidableEq, Repr

/-- The `categories_found` set of `analyze_content`, as a list in table
order: the category names whose keyword list has some member occurring in
the (already lowercased) text. -/
def categoriesFound (contentLower : String) : List String :=
  (KEYWORD_CATEGORIES.filter
    (fun ck => ck.2.any (fun kw => substr kw contentLower))).map (·.1)

/-- The `locations_found` set of `analyze_content`, as a list in table
order: the title-cased forms of the location names occurring in the
(already lowercased) text. -/
def locationsFound (contentLower : String) : List String :=
  (BANGALORE_LOCATIONS.filter (fun l => substr l contentLower)).map pyTitle

/-- `analyze_content` of `master_scraper.py`.  The argument is `Option`
to model a possibly-`None` Python argument; `none` and `some ""` are both
falsy in `if not content_text:`. -/
def analyze_content (content_text : Option String) : AnalysisResult :=
  match content_text with
  | none => ⟨["general"], []⟩
  | some t =>
      if t = "" then ⟨["general"], []⟩
      else
        let content_lower := pyLower t
        let categories_found := categoriesFound content_lower
        let locations_found := locationsFound content_lower
        ⟨if categories_found = [] then ["general"] else categories_found,
         locations_found⟩

example : analyze_content (some "Heavy traffic jam near Silk Board") =
    ⟨["traffic"], ["Silk Board"]⟩ := by decide

example : analyze_content (some "Exhibition at Koramangala this weekend") =
    ⟨["cultural_event"], ["Koramangala"]⟩ := by decide

example : analyze_content (some "nothing relevant") = ⟨["general"], []⟩ := by
  decide

/-! ## Source records and the normalizers -/

/-- A raw feedparser entry, with the fields `fetch_rss_data` consumes.
`none` models a missing key (for `entry.get`) / a missing attribute. -/
structure RssEntry where
  id : Option String
  link : Option String
  title : Option String
  summary : Option String
  published_parsed : Option Int
  tags : List String
deriving DecidableEq, Repr

/-- A PRAW submission, with the fields `fetch_reddit_data` consumes. -/
structure Submission where
  id : String
  title : String
  selftext : String
  permalink : String
  created_utc : Int
  url : String
  is_self : Bool
  link_flair_text : Option String
deriving DecidableEq, Repr

/-- The `analysis` sub-document of an event of `master_scraper.py`. -/
structure Analysis where
  categories : List String
  mentioned_locations : List String
deriving DecidableEq, Repr

/-- An event dict as built by `master_scraper.py` (the unified schema of
the optimized scraper).  `media_urls` is only set on the Reddit path; the
RSS path's dict has no such key, modelled as the empty list. -/
structure Event where
  event_id : String
  source_type : String
  source_name : String
  content_raw : String
  content_summary : String
  link_original : String
  timestamp_published : Int
  timestamp_scraped : Int
  media_urls : List String
  analysis : Analysis
deriving DecidableEq, Repr

/-- The event dict built inside the `fetch_rss_data` loop of
`master_scraper.py`, for one entry (before the `if event["link_original"]:`
guard).  `now` is the current UTC instant. -/
def rss_event (now : Int) (source : String) (e : RssEntry) : Event :=
  let content_for_analysis := e.title.getD "" ++ ". " ++ e.summary.getD ""
  let analysis_results := analyze_content (some content_for_analysis)
  let published_dt := match e.published_parsed with
    | some t => t
    | none => now
  { event_id := "rss_" ++ (match e.id with
      | some i => i
      | none => match e.link with
        | some l => l
        | none => "None"),
    source_type := "RSS",
    source_name := source,
    content_raw := e.title.getD "No Title",
    content_summary := e.summary.getD "No Summary",
    link_original := (e.link.getD ""),
    timestamp_published := published_dt,
    timestamp_scraped := now,
    media_urls := [],
    analysis := ⟨analysis_results.categories, analysis_results.locations⟩ }

/-- The per-entry step of `fetch_rss_data` of `master_scraper.py`: the
event is appended only when `event["link_original"]` is truthy (neither
`None` nor the empty string). -/
def fetch_rss_entry (now : Int) (source : String) (e : RssEntry) :
    Option Event :=
  let event := rss_event now source e
  if event.link_original = "" then none else some event

/-- The event dict built inside the `fetch_reddit_data` loop of
`master_scraper.py`, for one submission.  `displayName` is
`subreddit.display_name`; the Python `list(set(a + b))` category merge is
modelled by `List.dedup` (claims about it are stated up to membership). -/
def reddit_event (now : Int) (displayName : String) (s : Submission) :
    Event :=
  let content_for_analysis := s.title ++ ". " ++ s.selftext
  let analysis_results := analyze_content (some content_for_analysis)
  { event_id := "reddit_" ++ s.id,
    source_type := "Reddit",
    source_name := "r/" ++ displayName,
    content_raw := s.title ++ " :: " ++ s.selftext,
    content_summary := s.title,
    link_original := "https://www.reddit.com" ++ s.permalink,
    timestamp_published := s.created_utc,
    timestamp_scraped := now,
    media_urls :=
      if !s.is_self && !(substr "reddit.com" s.url) then [s.url] else [],
    analysis :=
      ⟨(analysis_results.categories ++
          (match s.link_flair_text with
            | some flair => [flair]
            | none => [])).dedup,
       analysis_results.locations⟩ }

/-! ### The v1 normalizers (`master_scraper_v1_working.py`) -/

/-- The `location` sub-document of a v1 event. -/
structure LocationInfo where
  text_raw : Option String
  geo_coordinates : Option String
deriving DecidableEq, Repr

/-- An event dict as built by `master_scraper_v1_working.py`: categories
live at the top level and come only from source-provided tags; there is no
classifier. -/
structure EventV1 where
  event_id : String
  source_type : String
  source_name : String
  content_raw : String
  content_summary : String
  link_original : String
  timestamp_published : Int
  timestamp_scraped : Int
  location : LocationInfo
  media_urls : List String
  categories : List String
deriving DecidableEq, Repr

/-- The event dict built inside the `fetch_rss_data` loop of
`master_scraper_v1_working.py` (before the link guard): `categories` is
`[tag.term for tag in entry.get('tags', [])]`. -/
def rss_event_v1 (now : Int) (source : String) (e : RssEntry) : EventV1 :=
  let published_dt := match e.published_parsed with
    | some t => t
    | none => now
  { event_id := "rss_" ++ (match e.id with
      | some i => i
      | none => match e.link with
        | some l => l
        | none => "None"),
    source_type := "RSS",
    source_name := source,
    content_raw := e.title.getD "No Title",
    content_summary := e.summary.getD "No Summary",
    link_original := (e.link.getD ""),
    timestamp_published := published_dt,
    timestamp_scraped := now,
    location := ⟨none, none⟩,
    media_urls := [],
    categories := e.tags }

/-- The per-entry step of v1 `fetch_rss_data`, with the same
`if event["link_original"]:` guard as the optimized version. -/
def fetch_rss_entry_v1 (now : Int) (source : String) (e : RssEntry) :
    Option EventV1 :=
  let event := rss_event_v1 now source e
  if event.link_original = "" then none else some event

/-- The event dict built inside the `fetch_reddit_data` loop of
`master_scraper_v1_working.py`: `categories` is the flair (if any) and
`media_urls` uses the same expression as the optimized version. -/
def reddit_event_v1 (now : Int) (displayName : String) (s : Submission) :
    EventV1 :=
  { event_id := "reddit_" ++ s.id,
    source_type := "Reddit",
    source_name := "r/" ++ displayName,
    content_raw := s.title ++ " :: " ++ s.selftext,
    content_summary := s.title,
    link_original := "https://www.reddit.com" ++ s.permalink,
    timestamp_published := s.created_utc,
    timestamp_scraped := now,
    location := ⟨some s.title, none⟩,
    media_urls :=
      if !s.is_self && !(substr "reddit.com" s.url) then [s.url] else [],
    categories := match s.link_flair_text with
      | some flair => [flair]
      | none => [] }

/-! ## The store: `store_events_in_db` -/

/-- Does the collection contain a row whose `link_original` equals `lk`?
This is the match test of
`update_one({'link_original': ...}, ..., upsert=True)`. -/
def hasLink (store : List Event) (lk : String) : Bool :=
  store.any (fun r => r.link_original == lk)

/-- One `update_one({'link_original': l}, {'$setOnInsert': event},
upsert=True)` call against the collection, under the unique index on
`link_original` set up by `setup_database`: if a row with the link exists
the call modifies nothing (only `$setOnInsert` operators, so no update);
otherwise the event is inserted.  The Boolean is the truthiness of
`result.upserted_id`. -/
def update_one_upsert (store : List Event) (event : Event) :
    List Event × Bool :=
  if hasLink store event.link_original then (store, false)
  else (store ++ [event], true)

/-- The loop body of `store_events_in_db`: `fail e = true` models the
storage write for `e` raising an exception, which the `except` clause
catches (nothing stored, nothing counted, loop continues). -/
def storeLoop (fail : Event → Bool) (store : List Event) :
    List Event → List Event × Nat
  | [] => (store, 0)
  | e :: rest =>
      if fail e then storeLoop fail store rest
      else
        let r := update_one_upsert store e
        let q := storeLoop fail r.1 rest
        (q.1, (if r.2 then 1 else 0) + q.2)

/-- `store_events_in_db` of `master_scraper.py`: returns the final
collection contents and `events_added`.  The `if not events: return 0`
guard is the first branch. -/
def store_events_in_db (fail : Event → Bool) (store : List Event)
    (events : List Event) : List Event × Nat :=
  if events = [] then (store, 0) else storeLoop fail store events

/-- The everywhere-succeeding failure oracle (no storage errors). -/
def noFail : Event → Bool := fun _ => false

/-! ## Spec-side predicates and concrete fixtures -/

/-- The spec's category-matching condition: some trigger phrase of the
table entry named `c` occurs as a case-insensitive substring of the text
(i.e. occurs in the lowered text; every trigger is lowercase ASCII). -/
def catMatches (t : String) (c : String) : Prop :=
  ∃ p ∈ KEYWORD_CATEGORIES, p.1 = c ∧ ∃ kw ∈ p.2, substr kw (pyLower t) = true

/-- A minimal stored event used in concrete store scenarios. -/
def mkStoredEvent (id lk : String) : Event :=
  { event_id := id, source_type := "RSS", source_name := "TimesOfIndia",
    content_raw := "t", content_summary := "s", link_original := lk,
    timestamp_published := 0, timestamp_scraped := 0, media_urls := [],
    analysis := ⟨["general"], []⟩ }

/-- Two distinct events sharing one `link_original`. -/
def dupA : Event := mkStoredEvent "rss_a" "http://dup.example/x"

/-- Second event with the same link as `dupA` but different content. -/
def dupB : Event := mkStoredEvent "rss_b" "http://dup.example/x"

/-- Three events with pairwise distinct links. -/
def evA : Event := mkStoredEvent "rss_1" "http://example.com/1"

def evB : Event := mkStoredEvent "rss_2" "http://example.com/2"

def evC : Event := mkStoredEvent "rss_3" "http://example.com/3"

/-- A feed entry whose text matches no keyword and no location. -/
def quietEntry : RssEntry :=
  { id := some "q1", link := some "http://news.example/q1",
    title := some "Quiet day", summary := some "Nothing notable",
    published_parsed := some 50, tags := [] }

/-- A self-text submission. -/
def selfPost : Submission :=
  { id := "p1", title := "Bad traffic at Silk Board", selftext := "so slow",
    permalink := "/r/bangalore/comments/p1", created_utc := 100,
    url := "https://www.reddit.com/r/bangalore/comments/p1", is_self := true,
    link_flair_text := none }

/-- A link submission whose external URL is on an unrelated domain that
merely contains the text `reddit.com`. -/
def textualRedditPost : Submission :=
  { id := "p2", title := "Check this", selftext := "",
    permalink := "/r/bangalore/comments/p2", created_utc := 5,
    url := "https://blog.example.org/why-reddit.com-matters",
    is_self := false, link_flair_text := none }

/-! ## Helper lemmas -/

lemma hasLink_iff_mem (store : List Event) (lk : String) :
    hasLink store lk = true ↔ lk ∈ store.map (·.link_original) := by
  simp [hasLink, List.any_eq_true, List.mem_map]

lemma hasLink_eq_false_iff (store : List Event) (lk : String) :
    hasLink store lk = false ↔ lk ∉ store.map (·.link_original) := by
  rw [← Bool.not_eq_true, not_iff_not.mpr (hasLink_iff_mem store lk)]

lemma hasLink_append (s t : List Event) (lk : String) :
    hasLink (s ++ t) lk = (hasLink s lk || hasLink t lk) := by
  simp [hasLink, List.any_append]

lemma hasLink_singleton (e : Event) (lk : String) :
    hasLink [e] lk = (e.link_original == lk) := by
  simp [hasLink]

/-- Failing events are skipped wholesale: running the loop with a failure
oracle is running it with no failures on the surviving sublist. -/
lemma storeLoop_filter (fail : Event → Bool) (store : List Event)
    (events : List Event) :
    storeLoop fail store events =
      storeLoop noFail store (events.filter (fun e => !fail e)) := by
  induction events generalizing store with
  | nil => rfl
  | cons e rest ih =>
      by_cases hf : fail e = true
      · simp [storeLoop, hf, List.filter_cons, ih]
      · simp only [Bool.not_eq_true] at hf
        simp [storeLoop, hf, List.filter_cons, ih, noFail]

/-- If every link in the batch is already stored, the loop is a no-op. -/
lemma storeLoop_all_present (store : List Event) (events : List Event)
    (h : ∀ e ∈ events, hasLink store e.link_original = true) :
    storeLoop noFail store events = (store, 0) := by
  induction events with
  | nil => rfl
  | cons e rest ih =>
      have he := h e (List.mem_cons_self e rest)
      simp [storeLoop, noFail, update_one_upsert, he,
        ih fun e' he' => h e' (List.mem_cons_of_mem e he')]

/-- A batch of pairwise-distinct links, all absent from the store, is
appended in full and counted in full. -/
lemma storeLoop_fresh (store : List Event) (events : List Event)
    (hnd : (events.map (·.link_original)).Nodup)
    (habs : ∀ e ∈ events, hasLink store e.link_original = false) :
    storeLoop noFail store events = (store ++ events, events.length) := by
  induction events generalizing store with
  | nil => simp [storeLoop]
  | cons e rest ih =>
      have he := habs e (List.mem_cons_self e rest)
      simp only [List.map_cons, List.nodup_cons] at hnd
      have habs' : ∀ e' ∈ rest, hasLink (store ++ [e]) e'.link_original = false := by
        intro e' he'
        rw [hasLink_append, hasLink_singleton]
        have h1 := habs e' (List.mem_cons_of_mem e he')
        have h2 : e.link_original ≠ e'.link_original := by
          intro hEq
          exact hnd.1 (hEq ▸ List.mem_map_of_mem (·.link_original) he')
        simp [h1, h2]
      simp [storeLoop, noFail, update_one_upsert, he, ih (store ++ [e]) hnd.2 habs',
        List.append_assoc, Nat.add_comm]

/-- The loop preserves pairwise distinctness of stored links, whatever the
failure oracle. -/
lemma storeLoop_nodup (fail : Event → Bool) (store : List Event)
    (events : List Event)
    (h : (store.map (·.link_original)).Nodup) :
    ((storeLoop fail store events).1.map (·.link_original)).Nodup := by
  induction events generalizing store with
  | nil => exact h
  | cons e rest ih =>
      by_cases hf : fail e = true
      · simpa [storeLoop, hf] using ih store h
      · simp only [Bool.not_eq_true] at hf
        by_cases hl : hasLink store e.link_original = true
        · simpa [storeLoop, hf, update_one_upsert, hl] using ih store h
        · simp only [Bool.not_eq_true] at hl
          have h' : ((store ++ [e]).map (·.link_original)).Nodup := by
            rw [List.map_append, List.nodup_append]
            refine ⟨h, List.nodup_singleton _, ?_⟩
            intro x hx hx'
            simp only [List.map_cons, List.map_nil, List.mem_singleton] at hx'
            subst hx'
            exact (hasLink_eq_false_iff store e.link_original).mp hl hx
          simpa [storeLoop, hf, update_one_upsert, hl] using ih (store ++ [e]) h'

/-- Membership in the matched-category list: exactly the table entries one
of whose keywords occurs in the lowered text. -/
lemma mem_categoriesFound (l : String) (c : String) :
    c ∈ categoriesFound l ↔
      ∃ p ∈ KEYWORD_CATEGORIES, p.1 = c ∧ ∃ kw ∈ p.2, substr kw l = true := by
  simp only [categoriesFound, List.mem_map, List.mem_filter, List.any_eq_true]
  constructor
  · rintro ⟨p, ⟨hp, hkw⟩, rfl⟩
    exact ⟨p, hp, rfl, hkw⟩
  · rintro ⟨p, hp, rfl, hkw⟩
    exact ⟨p, ⟨hp, hkw⟩, rfl⟩

lemma categoriesFound_eq_nil_iff (l : String) :
    categoriesFound l = [] ↔
      ∀ p ∈ KEYWORD_CATEGORIES, ∀ kw ∈ p.2, ¬ substr kw l = true := by
  simp [categoriesFound, List.map_eq_nil_iff, List.filter_eq_nil_iff,
    List.any_eq_true]

/-- Membership in the matched-location list: exactly the title-cased
location names occurring in the lowered text. -/
lemma mem_locationsFound (l : String) (loc : String) :
    loc ∈ locationsFound l ↔
      ∃ name ∈ BANGALORE_LOCATIONS, substr name l = true ∧
        pyTitle name = loc := by
  simp only [locationsFound, List.mem_map, List.mem_filter]
  constructor
  · rintro ⟨name, ⟨hn, hs⟩, rfl⟩
    exact ⟨name, hn, hs, rfl⟩
  · rintro ⟨name, hn, hs, rfl⟩
    exact ⟨name, ⟨hn, hs⟩, rfl⟩

/-- The classifier never returns an empty category list. -/
lemma analyze_content_categories_ne_nil (o : Option String) :
    (analyze_content o).categories ≠ [] := by
  match o with
  | none => simp [analyze_content]
  | some t =>
      by_cases ht : t = ""
      · simp [analyze_content, ht]
      · by_cases hc : categoriesFound (pyLower t) = [] <;>
          simp [analyze_content, ht, hc]

/-- When no keyword matches (or the text is empty) the classifier returns
exactly `['general']`. -/
lemma analyze_content_categories_general (t : String)
    (h : categoriesFound (pyLower t) = []) :
    (analyze_content (some t)).categories = ["general"] := by
  by_cases ht : t = "" <;> simp [analyze_content, ht, h]

/-! ## Claim theorems -/

/-- C2: for every text input, `analyze_content` returns as categories
exactly the set of category names in `KEYWORD_CATEGORIES` for which at
least one trigger phrase occurs as a case-insensitive substring of the
text; if zero categories match the result is exactly `{"general"}`; and
empty or absent text yields `{categories: {"general"}, locations: {}}`. -/
theorem analyze_content_category_rule (t : String) (ht : t ≠ "") :
    (∀ c, c ∈ (analyze_content (some t)).categories ↔
      (((∃ c', catMatches t c') ∧ catMatches t c) ∨
        (¬ (∃ c', catMatches t c') ∧ c = "general")))
    ∧ analyze_content none = ⟨["general"], []⟩
    ∧ analyze_content (some "") = ⟨["general"], []⟩ := by
  refine ⟨?_, rfl, rfl⟩
  intro c
  by_cases hc : categoriesFound (pyLower t) = []
  · have hno : ¬ ∃ c', catMatches t c' := by
      rintro ⟨c', hc'⟩
      rw [List.eq_nil_iff_forall_not_mem] at hc
      exact hc c' ((mem_categoriesFound _ _).mpr hc')
    rw [analyze_content_categories_general t hc, List.mem_singleton]
    constructor
    · intro h
      exact Or.inr ⟨hno, h⟩
    · rintro (⟨hex, _⟩ | ⟨_, h⟩)
      · exact absurd hex hno
      · exact h
  · have hex : ∃ c', catMatches t c' := by
      obtain ⟨c0, hc0⟩ := List.exists_mem_of_ne_nil _ hc
      exact ⟨c0, (mem_categoriesFound _ _).mp hc0⟩
    have hres : (analyze_content (some t)).categories =
        categoriesFound (pyLower t) := by
      simp [analyze_content, ht, hc]
    rw [hres, mem_categoriesFound]
    constructor
    · intro h
      exact Or.inl ⟨hex, h⟩
    · rintro (⟨_, h⟩ | ⟨hn, _⟩)
      · exact h
      · exact absurd hex hn

/-- Witness for C2 at a concrete text: "traffic jam ahead" matches the
`traffic` category and nothing else. -/
theorem analyze_content_category_rule_witness :
    "traffic" ∈ (analyze_content (some "Traffic Jam ahead")).categories :=
  ((analyze_content_category_rule "Traffic Jam ahead" (by decide)).1
      "traffic").mpr
    (Or.inl ⟨⟨"traffic", ⟨("traffic",
        ["traffic", "jam", "congestion", "road", "flyover", "accident",
         "diversion", "slow moving", "blockade"]), by decide⟩⟩,
      ⟨("traffic",
        ["traffic", "jam", "congestion", "road", "flyover", "accident",
         "diversion", "slow moving", "blockade"]), by decide⟩⟩)

/-- C9: for every text input, `analyze_content` returns as locations
exactly the title-cased forms of the configured place names occurring as
case-insensitive substrings of the text — all matches, no ranking; e.g.
"Heavy traffic jam near Silk Board" yields the `traffic` category and the
`Silk Board` location. -/
theorem analyze_content_location_rule (t : String) (ht : t ≠ "") :
    (∀ loc, loc ∈ (analyze_content (some t)).locations ↔
      ∃ name ∈ BANGALORE_LOCATIONS, substr name (pyLower t) = true ∧
        pyTitle name = loc)
    ∧ "traffic" ∈
        (analyze_content (some "Heavy traffic jam near Silk Board")).categories
    ∧ "Silk Board" ∈
        (analyze_content (some "Heavy traffic jam near Silk Board")).locations := by
  refine ⟨?_, by decide, by decide⟩
  intro loc
  have hl : (analyze_content (some t)).locations = locationsFound (pyLower t) := by
    by_cases hc : categoriesFound (pyLower t) = [] <;>
      simp [analyze_content, ht, hc]
  rw [hl]
  exact mem_locationsFound _ _

/-- Witness for C9 at a concrete text. -/
theorem analyze_content_location_rule_witness :
    "Silk Board" ∈
      (analyze_content (some "accident near silk board flyover")).locations :=
  ((analyze_content_location_rule "accident near silk board flyover"
      (by decide)).1 "Silk Board").mpr
    ⟨"silk board", by decide, by decide, by decide⟩

/-- C3 (amended): for every Event produced by the optimized scraper's
Normalizer (`master_scraper.py`), on either the feed path or the forum
path, `analysis.categories` is non-empty, and it is exactly `["general"]`
when no keyword matches and (on the forum path) no flair tag exists.  The
v1 scraper's feed path does not satisfy this (see the counterexample). -/
theorem normalizer_categories_nonempty :
    (∀ now source e ev, fetch_rss_entry now source e = some ev →
        ev.analysis.categories ≠ [] ∧
        (categoriesFound
            (pyLower (e.title.getD "" ++ ". " ++ e.summary.getD "")) = [] →
          ev.analysis.categories = ["general"]))
    ∧ (∀ now name s,
        (reddit_event now name s).analysis.categories ≠ [] ∧
        (categoriesFound (pyLower (s.title ++ ". " ++ s.selftext)) = [] →
          s.link_flair_text = none →
          (reddit_event now name s).analysis.categories = ["general"])) := by
  constructor
  · intro now source e ev h
    rw [fetch_rss_entry] at h
    split at h
    · exact absurd h (by simp)
    · rw [Option.some_inj] at h
      subst h
      have hcat : (rss_event now source e).analysis.categories =
          (analyze_content
            (some (e.title.getD "" ++ ". " ++ e.summary.getD ""))).categories :=
        rfl
      rw [hcat]
      exact ⟨analyze_content_categories_ne_nil _,
        fun hc => analyze_content_categories_general _ hc⟩
  · intro now name s
    have hcat : (reddit_event now name s).analysis.categories =
        ((analyze_content (some (s.title ++ ". " ++ s.selftext))).categories ++
          (match s.link_flair_text with
            | some flair => [flair]
            | none => [])).dedup := rfl
    rw [hcat]
    constructor
    · intro hnil
      rw [List.dedup_eq_nil, List.append_eq_nil] at hnil
      exact analyze_content_categories_ne_nil _ hnil.1
    · intro hc hflair
      rw [hflair, analyze_content_categories_general _ hc]
      simp

/-- C3 counterexample: the v1 scraper's feed path (cited by the claim)
emits an Event whose categories list is empty — a feed entry with a link
but no tags passes the link guard and gets `categories = []`. -/
theorem normalizer_empty_categories_v1_feed :
    fetch_rss_entry_v1 0 "TheHindu" quietEntry =
      some (rss_event_v1 0 "TheHindu" quietEntry)
    ∧ (rss_event_v1 0 "TheHindu" quietEntry).categories = [] := by
  constructor
  · rfl
  · rfl

/-- Witness for C3 at a concrete no-match feed entry. -/
theorem normalizer_categories_nonempty_witness :
    (rss_event 0 "TimesOfIndia" quietEntry).analysis.categories = ["general"] :=
  (normalizer_categories_nonempty.1 0 "TimesOfIndia" quietEntry
      (rss_event 0 "TimesOfIndia" quietEntry) rfl).2 (by decide)

/-- C6: on the forum path the Normalizer sets `media_urls` to the
single-element list containing the post's external URL exactly when the
post is not a self post and the URL does not point back into the forum's
own domain (the code's test for which is `"reddit.com" in url`), and to
the empty list otherwise; a self post always yields empty `media_urls`. -/
theorem reddit_media_urls_rule (now : Int) (name : String) (s : Submission) :
    ((reddit_event now name s).media_urls = [s.url] ↔
      s.is_self = false ∧ substr "reddit.com" s.url = false)
    ∧ (s.is_self = true → (reddit_event now name s).media_urls = [])
    ∧ ((reddit_event now name s).media_urls = [s.url] ∨
        (reddit_event now name s).media_urls = []) := by
  have hm : (reddit_event now name s).media_urls =
      if !s.is_self && !(substr "reddit.com" s.url) then [s.url] else [] := rfl
  cases hs : s.is_self <;> cases hr : substr "reddit.com" s.url <;>
    simp [hm, hs, hr]

/-- Witness for C6: a self post gets empty `media_urls`. -/
theorem reddit_media_urls_rule_witness :
    (reddit_event 0 "bangalore" selfPost).media_urls = [] :=
  (reddit_media_urls_rule 0 "bangalore" selfPost).2.1 rfl

/-- C8: every Event the optimized Normalizer emits (feed path: after the
link guard; forum path: always) has a non-empty `link_original`. -/
theorem link_original_mandatory :
    (∀ now source e ev, fetch_rss_entry now source e = some ev →
      ev.link_original ≠ "")
    ∧ (∀ now name s, (reddit_event now name s).link_original ≠ "") := by
  constructor
  · intro now source e ev h
    rw [fetch_rss_entry] at h
    split at h
    · exact absurd h (by simp)
    · rw [Option.some_inj] at h
      subst h
      assumption
  · intro now name s
    show ("https://www.reddit.com" ++ s.permalink) ≠ ""
    intro hEq
    have hlen : ("https://www.reddit.com" ++ s.permalink).length = 0 := by
      rw [hEq]
      rfl
    rw [String.length_append] at hlen
    have h22 : ("https://www.reddit.com" : String).length = 22 := rfl
    omega

/-- Witness for C8 at a concrete feed entry with a link. -/
theorem link_original_mandatory_witness :
    (rss_event 0 "TimesOfIndia" quietEntry).link_original ≠ "" :=
  link_original_mandatory.1 0 "TimesOfIndia" quietEntry
    (rss_event 0 "TimesOfIndia" quietEntry) rfl

/-- C10 (implicit): the forum-domain test is a plain substring check — a
non-self post whose external URL contains `"reddit.com"` anywhere gets
empty `media_urls`, in both scraper versions, even on an unrelated
domain. -/
theorem reddit_domain_check_is_substring (now : Int) (name : String)
    (s : Submission) (h1 : s.is_self = false)
    (h2 : substr "reddit.com" s.url = true) :
    (reddit_event now name s).media_urls = [] ∧
    (reddit_event_v1 now name s).media_urls = [] := by
  constructor
  · show (if !s.is_self && !(substr "reddit.com" s.url) then [s.url] else [])
      = []
    simp [h1, h2]
  · show (if !s.is_self && !(substr "reddit.com" s.url) then [s.url] else [])
      = []
    simp [h1, h2]

/-- Witness for C10: an unrelated domain merely containing the text
`reddit.com` suppresses `media_urls`. -/
theorem reddit_domain_check_is_substring_witness :
    (reddit_event 0 "bangalore" textualRedditPost).media_urls = [] ∧
    (reddit_event_v1 0 "bangalore" textualRedditPost).media_urls = [] :=
  reddit_domain_check_is_substring 0 "bangalore" textualRedditPost rfl
    (by decide)

/-- C1 counterexample: a batch of two distinct Events sharing one
`link_original`, both absent from the (empty) store, yields an inserted
count of 1, not the batch size 2. -/
theorem upsertBatch_count_counterexample :
    (∀ e ∈ [dupA, dupB], hasLink [] e.link_original = false)
    ∧ List.length [dupA, dupB] = 2
    ∧ (store_events_in_db noFail [] [dupA, dupB]).2 = 1
    ∧ (store_events_in_db noFail [] [dupA, dupB]).2 ≠ 2 := by
  refine ⟨?_, rfl, ?_, ?_⟩
  · intro e _
    rfl
  · rfl
  · decide

/-- C1 (amended): for every list of Events with pairwise-distinct
`link_original` values, all absent from the store, a failure-free
`store_events_in_db` call returns the batch length as the inserted count,
an immediate second call with the identical list returns 0, and the stored
row count increases by exactly the batch length across the two calls. -/
theorem upsertBatch_idempotent (store events : List Event)
    (hnd : (events.map (·.link_original)).Nodup)
    (habs : ∀ e ∈ events, hasLink store e.link_original = false) :
    store_events_in_db noFail store events = (store ++ events, events.length)
    ∧ store_events_in_db noFail (store ++ events) events = (store ++ events, 0)
    ∧ (store ++ events).length = store.length + events.length := by
  refine ⟨?_, ?_, by simp⟩
  · by_cases he : events = []
    · subst he
      simp [store_events_in_db]
    · rw [store_events_in_db, if_neg he]
      exact storeLoop_fresh store events hnd habs
  · by_cases he : events = []
    · subst he
      simp [store_events_in_db]
    · have hpres : ∀ e ∈ events,
          hasLink (store ++ events) e.link_original = true := by
        intro e he'
        rw [hasLink_append, Bool.or_eq_true, hasLink_iff_mem,
          hasLink_iff_mem]
        exact Or.inr (List.mem_map_of_mem _ he')
      rw [store_events_in_db, if_neg he]
      exact storeLoop_all_present _ _ hpres

/-- Witness for C1 (amended) on a two-event batch with distinct links. -/
theorem upsertBatch_idempotent_witness :
    store_events_in_db noFail [] [evA, evB] = ([evA, evB], 2)
    ∧ store_events_in_db noFail [evA, evB] [evA, evB] = ([evA, evB], 0) := by
  have h := upsertBatch_idempotent [] [evA, evB] (by decide) (by decide)
  exact ⟨h.1, h.2.1⟩

/-- C4: no two stored rows ever share a `link_original` — the store
operation preserves pairwise distinctness of stored links for every
failure oracle and every batch (including batches with internal duplicate
links), and in a duplicate-link batch only the first occurrence is
inserted and counted. -/
theorem store_uniqueness_invariant :
    (∀ fail store events, (store.map (·.link_original)).Nodup →
        ((store_events_in_db fail store events).1.map (·.link_original)).Nodup)
    ∧ store_events_in_db noFail [] [dupA, dupB] = ([dupA], 1) := by
  constructor
  · intro fail store events h
    by_cases he : events = []
    · simpa [store_events_in_db, he] using h
    · rw [store_events_in_db, if_neg he]
      exact storeLoop_nodup fail store events h
  · decide

/-- Witness for C4: a store with one row, fed a batch with an internal
duplicate link, still ends with pairwise-distinct stored links. -/
theorem store_uniqueness_invariant_witness :
    ((store_events_in_db noFail [evA] [dupA, dupB, evB]).1.map
      (·.link_original)).Nodup :=
  store_uniqueness_invariant.1 noFail [evA] [dupA, dupB, evB] (by decide)

/-- C5: a per-event storage failure is contained — running the batch with
a failure oracle equals running the surviving sublist with no failures
(so every remaining Event is still processed and the count excludes the
failed ones); concretely, in a batch of 3 where the 2nd write fails,
Events 1 and 3 are stored and the count is 2. -/
theorem storage_failure_containment :
    (∀ fail store events,
        store_events_in_db fail store events =
          store_events_in_db noFail store (events.filter (fun e => !fail e)))
    ∧ store_events_in_db (fun e => e.link_original == evB.link_original) []
        [evA, evB, evC] = ([evA, evC], 2) := by
  constructor
  · intro fail store events
    by_cases he : events = []
    · subst he
      rfl
    · rw [store_events_in_db, if_neg he, storeLoop_filter]
      by_cases hf : events.filter (fun e => !fail e) = []
      · rw [hf, store_events_in_db, if_pos rfl]
        rfl
      · rw [store_events_in_db, if_neg hf]
  · decide

/-- C7: upserting an Event whose `link_original` already has a stored row
leaves the whole store unmodified (no field of the existing row changes)
and contributes nothing to the inserted count. -/
theorem duplicate_upsert_noop (fail : Event → Bool) (store : List Event)
    (e : Event) (h : ∃ r ∈ store, r.link_original = e.link_original) :
    store_events_in_db fail store [e] = (store, 0) := by
  have hl : hasLink store e.link_original = true := by
    rw [hasLink_iff_mem]
    obtain ⟨r, hr, hrl⟩ := h
    exact hrl ▸ List.mem_map_of_mem _ hr
  by_cases hf : fail e = true <;>
    simp [store_events_in_db, storeLoop, hf, update_one_upsert, hl]

/-- Witness for C7: re-scraping a stored link (same link, different
content) changes nothing and counts nothing. -/
theorem duplicate_upsert_noop_witness :
    store_events_in_db noFail [dupA] [dupB] = ([dupA], 0) :=
  duplicate_upsert_noop noFail [dupA] dupB ⟨dupA, by simp, rfl⟩
